import Mathlib

set_option maxRecDepth 8000

/-!
Shallow embedding of the authentication core of the IS601_Assignment10
repository: password hashing (`app/auth/security.py`), token issuance and
verification (`app/auth/security.py`, `app/auth/dependencies.py`), the user
model (`app/models/user.py`, `app/models/user_model.py`) and session
resolution (`app/auth/dependencies.py`).

Python strings are modelled as `List Char`; fallible Python code returns
`Except PyExc`; the per-request wall clock (`datetime.utcnow`) and the random
salt drawn by the hashing backend are explicit parameters.
-/

/-- Python exception values that the authentication core raises or catches. -/
inductive PyExc where
  | expiredSignature : PyExc
  | jwtError : PyExc
  | valueError : String → PyExc
  | runtimeError : String → PyExc
  | httpException : Nat → String → PyExc
  | otherExc : PyExc
deriving DecidableEq, Repr

/-- Python runtime values passed to the duck-typed password functions: a
string, `None`, or a non-string object (represented by an integer). -/
inductive PyVal where
  | vstr : List Char → PyVal
  | vnone : PyVal
  | vint : Int → PyVal
deriving DecidableEq, Repr

/-- Modelled from the spec: the hashing backend behind
`CryptContext(schemes=["bcrypt"])` is the external passlib library, not part
of src/. Section 4.1 describes it as a salted one-way hash whose digest embeds
the salt; the digest here follows the bcrypt modular-crypt shape
`$2b$12$` ++ salt(22 chars) ++ hash(31 chars), with a deterministic mixing
function standing in for the bcrypt core. One mixing step (djb2-style,
reduced modulo 2^64). -/
def djb2Step (acc : Nat) (c : Char) : Nat :=
  (acc * 33 + c.toNat) % (2 ^ 64)

/-- Fold the mixing step over a character list. -/
def mixChars (seed : Nat) (s : List Char) : Nat :=
  s.foldl djb2Step seed

/-- The 64-character bcrypt digest alphabet. -/
def b64Alphabet : List Char :=
  "./ABCDEFGHIJKLMNOPQRSTUVWXYZabcdefghijklmnopqrstuvwxyz0123456789".data

/-- One output character of the digest encoding. -/
def encChar (n : Nat) : Char :=
  b64Alphabet.getD (n % 64) '.'

/-- Thirty base64-style characters drawn from a mixed value. -/
def encode30 (n : Nat) : List Char :=
  (List.range 30).map (fun i => encChar (n / 64 ^ i))

/-- A character-level avalanche step of the modelled hash core: the final
digest character depends on the final plaintext character and never equals
its input. -/
def flipChar (c : Char) : Char :=
  if c = 'A' then 'B' else 'A'

/-- Last character of a plaintext, with the bcrypt-alphabet pad for the empty
string. -/
def lastCharOr (p : List Char) : Char :=
  (p.getLast?).getD '.'

/-- The 31-character hash section of a digest: 30 mixed characters plus one
avalanche character. -/
def hashSection (salt p : List Char) : List Char :=
  encode30 (mixChars (mixChars 5381 salt) p) ++ [flipChar (lastCharOr p)]

/-- The `$2b$12$` header of a bcrypt modular-crypt digest. -/
def mcfHeader : List Char :=
  "$2b$12$".data

/-- A full digest: header, embedded salt, hash section. -/
def bcryptDigest (salt p : List Char) : List Char :=
  mcfHeader ++ (salt ++ hashSection salt p)

/-- Salt segment extracted from a digest string (characters 7 to 28). -/
def saltOf (d : List Char) : List Char :=
  (d.drop 7).take 22

/-- Structural well-formedness of a digest string: correct header and the
fixed 60-character length. -/
def isBcryptDigest (d : List Char) : Bool :=
  decide (d.take 7 = mcfHeader) && decide (d.length = 60)

/-- Modelled from the spec: `pwd_context.hash` of the external passlib
library. The randomly drawn salt is an explicit parameter. -/
def pwdContextHash (salt p : List Char) : List Char :=
  bcryptDigest salt p

/-- Modelled from the spec: `pwd_context.verify` of the external passlib
library. It rehashes the plaintext with the salt embedded in the digest and
compares; it raises on a digest it cannot parse and on non-string
arguments. -/
def pwdContextVerify (plain hashed : PyVal) : Except PyExc Bool :=
  match plain, hashed with
  | .vstr p, .vstr d =>
      if isBcryptDigest d then .ok (decide (bcryptDigest (saltOf d) p = d))
      else .error .otherExc
  | _, _ => .error .otherExc

/-- `app/auth/security.py` `hash_password`: rejects non-string or empty input
with a `ValueError`, otherwise delegates to `pwd_context.hash`. The salt
parameter models the salt passlib draws for this call. -/
def hash_password (salt : List Char) (password : PyVal) : Except PyExc (List Char) :=
  match password with
  | .vstr p =>
      if p = [] then .error (.valueError "Password must be a non-empty string.")
      else .ok (pwdContextHash salt p)
  | _ => .error (.valueError "Password must be a non-empty string.")

/-- `app/auth/security.py` `verify_password`: wraps `pwd_context.verify` in a
catch-all that converts any raised exception to `False`. -/
def verify_password (plain hashed : PyVal) : Bool :=
  match pwdContextVerify plain hashed with
  | .ok b => b
  | .error _ => false

example : verify_password (.vstr "abc".data) (.vstr "junk".data) = false := by decide

example : verify_password (.vstr "abc".data)
    (.vstr (pwdContextHash "0123456789012345678901".data "abc".data)) = true := by decide

/-- A claim value inside a token payload dict: a string, a datetime (as a Unix
timestamp), or an integer. -/
inductive ClaimVal where
  | str : List Char → ClaimVal
  | time : Int → ClaimVal
  | int : Int → ClaimVal
deriving DecidableEq, Repr

/-- A Python dict of claims, as an association list in insertion order. -/
abbrev Claims := List (List Char × ClaimVal)

/-- `dict.get`: first binding of the key, if any. -/
def dictGet (d : Claims) (k : List Char) : Option ClaimVal :=
  match d with
  | [] => none
  | (k2, v) :: rest => if k2 = k then some v else dictGet rest k

/-- `dict.update` with a single key: replace the binding in place or append
it. -/
def dictSet (d : Claims) (k : List Char) (v : ClaimVal) : Claims :=
  match d with
  | [] => [(k, v)]
  | (k2, v2) :: rest => if k2 = k then (k2, v) :: rest else (k2, v2) :: dictSet rest k v

/-- Decimal digits of a natural number, as Python `str` would print it. -/
def natToChars (n : Nat) : List Char :=
  Nat.toDigits 10 n

/-- Decimal rendering of an integer. -/
def intToChars (i : Int) : List Char :=
  match i with
  | .ofNat n => natToChars n
  | .negSucc n => '-' :: natToChars (n + 1)

/-- Serialization of one claim value, used by the modelled signer. -/
def claimValChars : ClaimVal → List Char
  | .str s => 's' :: s
  | .time t => 't' :: intToChars t
  | .int n => 'i' :: intToChars n

/-- Serialization of a payload dict, used by the modelled signer. -/
def claimsChars : Claims → List Char
  | [] => []
  | (k, v) :: rest => k ++ ':' :: claimValChars v ++ ';' :: claimsChars rest

/-- Modelled from the spec: the HMAC-style signature the external jose
library computes over the serialized payload with the server secret
(section 3, Access Token: a cryptographic signature over the claims plus
expiry, produced with a server-held secret). -/
def jwtSignature (secret : List Char) (payload : Claims) : Nat :=
  mixChars (mixChars 5381 secret) (claimsChars payload)

/-- Modelled from the spec: a token string is an implementation detail of the
Token Service (section 6); only "decodable by the same Token Service that
issued it" is contractual. A token value is either a structurally valid
payload-plus-signature pair or a malformed string. -/
inductive Token where
  | signed : Claims → Nat → Token
  | malformed : List Char → Token
deriving DecidableEq, Repr

/-- The `"sub"` claim key. -/
def subKey : List Char := "sub".data

/-- The `"exp"` claim key. -/
def expKey : List Char := "exp".data

/-- Modelled from the spec: `jose.jwt.encode` signs the payload with the
secret. -/
def jwtEncode (payload : Claims) (secret : List Char) : Token :=
  .signed payload (jwtSignature secret payload)

/-- Modelled from the spec: `jose.jwt.decode` rejects malformed token strings
and wrong signatures with `JWTError`, rejects a stale `exp` claim with
`ExpiredSignatureError`, and otherwise returns the payload. The signature is
checked before any claim is trusted. `now` is the verifier clock. -/
def jwtDecode (now : Int) (token : Token) (secret : List Char) : Except PyExc Claims :=
  match token with
  | .malformed _ => .error .jwtError
  | .signed payload sig =>
      if sig = jwtSignature secret payload then
        match dictGet payload expKey with
        | some (.time t) => if t ≤ now then .error .expiredSignature else .ok payload
        | some (.int t) => if t ≤ now then .error .expiredSignature else .ok payload
        | some _ => .error .jwtError
        | none => .ok payload
      else .error .jwtError

/-- `SECRET_KEY` shared by `app/config.py` (default), `app/auth/dependencies.py`
and `app/models/user_model.py`. -/
def secretKey : List Char := "super_secret_key_123".data

/-- `ACCESS_TOKEN_EXPIRE_MINUTES` (30) from `app/auth/dependencies.py` and
`app/config.py`. -/
def accessTokenExpireMinutes : Nat := 30

/-- A heap of dict objects, making Python reference/mutation semantics
explicit for `create_access_token`. -/
abbrev Heap := List Claims

/-- Dereference a dict object. -/
def heapRead (h : Heap) (r : Nat) : Claims :=
  h.getD r []

/-- Mutate a dict object in place. -/
def heapWrite (h : Heap) (r : Nat) (d : Claims) : Heap :=
  h.set r d

/-- Allocate a fresh dict object; returns the new heap and the new
reference. -/
def heapAlloc (h : Heap) (d : Claims) : Heap × Nat :=
  (h ++ [d], h.length)

/-- `create_access_token` from `app/auth/dependencies.py` (line for line the
same logic as the one in `app/auth/security.py`, whose settings default to the
same secret, algorithm and 30-minute TTL): `to_encode = data.copy()` allocates
a fresh dict, `to_encode.update(\x7b"exp": expire\x7d)` mutates only that
copy, and the copy is signed. `now` models `datetime.utcnow()`;
`expires_delta` is in seconds. Returns the heap after the call and the issued
token. -/
def create_access_token (now : Int) (h : Heap) (dataRef : Nat)
    (expires_delta : Option Int) : Heap × Token :=
  let alloc := heapAlloc h (heapRead h dataRef)
  let h1 := alloc.1
  let toEncode := alloc.2
  let expire : Int := now + expires_delta.getD ((accessTokenExpireMinutes : Int) * 60)
  let h2 := heapWrite h1 toEncode (dictSet (heapRead h1 toEncode) expKey (.time expire))
  (h2, jwtEncode (heapRead h2 toEncode) secretKey)

/-- `verify_access_token` from `app/auth/dependencies.py`: `jwt.decode` with
the shared secret; any `JWTError` (of which `ExpiredSignatureError` is a
subclass) becomes the single `HTTPException 401 "Invalid or expired token"`. -/
def verify_access_token (now : Int) (token : Token) : Except PyExc Claims :=
  match jwtDecode now token secretKey with
  | .ok payload => .ok payload
  | .error .expiredSignature => .error (.httpException 401 "Invalid or expired token")
  | .error .jwtError => .error (.httpException 401 "Invalid or expired token")
  | .error e => .error e

/-- `decode_access_token` from `app/auth/security.py`: `ExpiredSignatureError`
and `JWTError` both become `RuntimeError "Invalid or expired token"`; any
other exception becomes `RuntimeError "Token decode failure"`. -/
def decode_access_token (now : Int) (token : Token) : Except PyExc Claims :=
  match jwtDecode now token secretKey with
  | .ok payload => .ok payload
  | .error .expiredSignature => .error (.runtimeError "Invalid or expired token")
  | .error .jwtError => .error (.runtimeError "Invalid or expired token")
  | .error _ => .error (.runtimeError "Token decode failure")

/-- The SQLAlchemy `User` row (`app/models/user_model.py` and
`app/models/user.py`, identical columns): id, username, email,
password_hash, is_active, timestamps (set by the persistence layer). -/
structure User where
  id : Nat
  username : List Char
  email : List Char
  password_hash : List Char
  is_active : Bool
  created_at : Option Int
  updated_at : Option Int
deriving DecidableEq, Repr

/-- The `UserCreate` Pydantic schema (`app/schemas/user.py`,
`app/schemas/base.py`): validated username, email, is_active flag and
plaintext password. -/
structure UserCreate where
  username : List Char
  email : List Char
  is_active : Bool
  password : List Char
deriving DecidableEq, Repr

/-- The `UserResponse` Pydantic schema (`app/schemas/user_schema.py`): the
identity view returned to callers; it has no password field. -/
structure UserResponse where
  id : Nat
  username : List Char
  email : List Char
  is_active : Bool
  created_at : Option Int
  updated_at : Option Int
deriving DecidableEq, Repr

/-- `UserResponse.model_validate` on an ORM `User` row: field-wise copy of the
public attributes. -/
def UserResponse.model_validate (u : User) : UserResponse :=
  { id := u.id, username := u.username, email := u.email,
    is_active := u.is_active, created_at := u.created_at,
    updated_at := u.updated_at }

/-- `User.set_password` (`app/models/user_model.py` line 50 and
`app/models/user.py` line 65): stores `hash_password(password)` in
`password_hash`. The salt models the salt passlib draws for the call. -/
def User.set_password (salt : List Char) (u : User) (password : PyVal) :
    Except PyExc User :=
  (hash_password salt password).map (fun d => { u with password_hash := d })

/-- `User.from_schema` (`app/models/user.py` line 87): builds a row with
`is_active = True` and no id or digest yet (id 0 and empty digest stand for
the unset columns), then calls `set_password` on the schema password. -/
def User.from_schema (salt : List Char) (schema : UserCreate) : Except PyExc User :=
  let user : User :=
    { id := 0, username := schema.username, email := schema.email,
      password_hash := [], is_active := true,
      created_at := none, updated_at := none }
  User.set_password salt user (.vstr schema.password)

/-- `User.create_token` (`app/models/user_model.py` line 62): signs the
payload of `sub = str(user_id)` and `exp = now + 30 minutes`. -/
def User.create_token (now : Int) (user_id : Nat) : Token :=
  jwtEncode [(subKey, .str (natToChars user_id)),
             (expKey, .time (now + 30 * 60))] secretKey

/-- The database as a list of user rows, in table order. -/
abbrev DB := List User

/-- The `db.query(User).filter((User.username == x) | (User.email == x)).first()`
lookup in `authenticate_user` — the Credential Store Adapter
`find_by_identifier` of the spec. -/
def findByIdentifier (db : DB) (ident : List Char) : Option User :=
  db.find? (fun u => decide (u.username = ident) || decide (u.email = ident))

/-- Python truthiness of a claim value, for the `if not user_id` test: the
empty string, integer 0 (and nothing else occurring here) are falsy. -/
def pyTruthy : ClaimVal → Bool
  | .str s => decide (s ≠ [])
  | .time _ => true
  | .int n => decide (n ≠ 0)

/-- The `db.query(User).filter(User.id == user_id).first()` lookup in
`get_current_user` — the Credential Store Adapter `find_by_id` of the spec.
The subject is a string; SQL integer-affinity comparison matches it against
the decimal rendering of the integer id column. -/
def findById (db : DB) (v : ClaimVal) : Option User :=
  db.find? (fun u =>
    match v with
    | .str s => decide (natToChars u.id = s)
    | .int n => decide ((u.id : Int) = n)
    | .time _ => false)

/-- `authenticate_user` (`app/auth/dependencies.py` line 102): looks the user
up by username or email and checks the password; both a missing user and a
wrong password return `None`. -/
def authenticate_user (db : DB) (username_or_email : List Char)
    (password : List Char) : Option User :=
  match findByIdentifier db username_or_email with
  | none => none
  | some user =>
      if verify_password (.vstr password) (.vstr user.password_hash) then some user
      else none

/-- `get_current_user` (`app/auth/dependencies.py` line 127): verifies the
token, reads the `sub` claim (falsy or absent rejects with 401), looks the
user up by id (absent rejects with 401), and returns the
`UserResponse` view of the row that was found. -/
def get_current_user (now : Int) (token : Token) (db : DB) :
    Except PyExc UserResponse :=
  match verify_access_token now token with
  | .error e => .error e
  | .ok payload =>
      match dictGet payload subKey with
      | none => .error (.httpException 401 "Token missing user ID")
      | some v =>
          if pyTruthy v then
            match findById db v with
            | none => .error (.httpException 401 "User not found or inactive")
            | some u => .ok (UserResponse.model_validate u)
          else .error (.httpException 401 "Token missing user ID")

lemma dictGet_dictSet_self (d : Claims) (k : List Char) (v : ClaimVal) :
    dictGet (dictSet d k v) k = some v := by
  induction d with
  | nil => simp [dictGet, dictSet]
  | cons hd tl ih =>
      obtain ⟨k2, v2⟩ := hd
      by_cases h : k2 = k
      · simp [dictGet, dictSet, h]
      · simp [dictGet, dictSet, h, ih]

lemma dictGet_dictSet_ne (d : Claims) (k k2 : List Char) (v : ClaimVal)
    (h : k ≠ k2) : dictGet (dictSet d k v) k2 = dictGet d k2 := by
  induction d with
  | nil => simp [dictGet, dictSet, h]
  | cons hd tl ih =>
      obtain ⟨k3, v3⟩ := hd
      by_cases h3 : k3 = k
      · subst h3
        simp [dictGet, dictSet, h]
      · simp [dictGet, dictSet, h3, ih]

lemma heapRead_append_length (h : Heap) (d : Claims) :
    heapRead (h ++ [d]) h.length = d := by
  induction h with
  | nil => rfl
  | cons a t ih => simp [heapRead, List.getD] at ih ⊢

lemma heapRead_append_lt (h : Heap) (d : Claims) (r : Nat) (hr : r < h.length) :
    heapRead (h ++ [d]) r = heapRead h r := by
  induction h generalizing r with
  | nil => simp at hr
  | cons a t ih =>
      cases r with
      | zero => rfl
      | succ r2 =>
          have hr2 : r2 < t.length := by simpa using hr
          simpa [heapRead, List.getD] using ih r2 hr2

lemma heapWrite_append (h : Heap) (d d2 : Claims) :
    heapWrite (h ++ [d]) h.length d2 = h ++ [d2] := by
  induction h with
  | nil => rfl
  | cons a t ih => simp [heapWrite, List.set] at ih ⊢

lemma heapRead_set_ne (h : Heap) (i r : Nat) (d : Claims) (hir : i ≠ r) :
    heapRead (h.set i d) r = heapRead h r := by
  induction h generalizing i r with
  | nil => rfl
  | cons a t ih =>
      cases i with
      | zero =>
          cases r with
          | zero => exact absurd rfl hir
          | succ r2 => rfl
      | succ i2 =>
          cases r with
          | zero => rfl
          | succ r2 =>
              have : i2 ≠ r2 := fun he => hir (by rw [he])
              simpa [heapRead, List.getD, List.set] using ih i2 r2 this

lemma mcfHeader_length : mcfHeader.length = 7 := by decide

lemma encode30_length (n : Nat) : (encode30 n).length = 30 := by
  simp [encode30]

lemma hashSection_length (salt p : List Char) :
    (hashSection salt p).length = 31 := by
  simp [hashSection, encode30_length]

lemma take7_header (l : List Char) : (mcfHeader ++ l).take 7 = mcfHeader := by
  rw [show (7 : Nat) = mcfHeader.length from mcfHeader_length.symm, List.take_left]

lemma drop7_header (l : List Char) : (mcfHeader ++ l).drop 7 = l := by
  rw [show (7 : Nat) = mcfHeader.length from mcfHeader_length.symm, List.drop_left]

lemma saltOf_digest (salt p : List Char) (hs : salt.length = 22) :
    saltOf (bcryptDigest salt p) = salt := by
  unfold saltOf bcryptDigest
  rw [drop7_header, show (22 : Nat) = salt.length from hs.symm, List.take_left]

lemma bcryptDigest_length (salt p : List Char) (hs : salt.length = 22) :
    (bcryptDigest salt p).length = 60 := by
  simp [bcryptDigest, hashSection_length, mcfHeader_length, hs]

lemma isBcryptDigest_digest (salt p : List Char) (hs : salt.length = 22) :
    isBcryptDigest (bcryptDigest salt p) = true := by
  unfold isBcryptDigest
  rw [show bcryptDigest salt p = mcfHeader ++ (salt ++ hashSection salt p) from rfl,
    take7_header]
  simp [hashSection_length, mcfHeader_length, hs]

lemma flipChar_ne (c : Char) : flipChar c ≠ c := by
  unfold flipChar
  by_cases h : c = 'A'
  · subst h; decide
  · simp only [if_neg h]
    exact fun h2 => h h2.symm

lemma bcryptDigest_ne_nil (salt p : List Char) : bcryptDigest salt p ≠ [] := by
  intro h
  have := congrArg List.length h
  simp [bcryptDigest, mcfHeader_length, hashSection_length] at this

lemma bcryptDigest_ne_plain (salt p : List Char) : bcryptDigest salt p ≠ p := by
  intro heq
  have h1 : (bcryptDigest salt p).getLast? = some (flipChar (lastCharOr p)) := by
    unfold bcryptDigest hashSection
    rw [show mcfHeader ++
        (salt ++ (encode30 (mixChars (mixChars 5381 salt) p) ++ [flipChar (lastCharOr p)])) =
        (mcfHeader ++ (salt ++ encode30 (mixChars (mixChars 5381 salt) p))) ++
        [flipChar (lastCharOr p)] from by simp [List.append_assoc]]
    exact List.getLast?_concat _
  rw [heq] at h1
  have h2 : lastCharOr p = flipChar (lastCharOr p) := by
    have h3 := congrArg (fun o => o.getD '.') h1
    simpa [lastCharOr] using h3
  exact flipChar_ne (lastCharOr p) h2.symm

lemma verify_password_of_digest (salt p : List Char) (hs : salt.length = 22) :
    verify_password (.vstr p) (.vstr (bcryptDigest salt p)) = true := by
  simp [verify_password, pwdContextVerify, isBcryptDigest_digest salt p hs,
    saltOf_digest salt p hs]

lemma set_password_digest (salt : List Char) (u : User) (password : PyVal)
    (u2 : User) (h : User.set_password salt u password = .ok u2) :
    u2.password_hash ≠ [] ∧ ∀ p, password = .vstr p → u2.password_hash ≠ p := by
  cases password with
  | vstr p =>
      by_cases hp : p = []
      · subst hp
        simp [User.set_password, hash_password, Except.map] at h
      · simp [User.set_password, hash_password, hp, Except.map] at h
        subst h
        refine ⟨?_, ?_⟩
        · simpa [pwdContextHash] using bcryptDigest_ne_nil salt p
        · intro q hq hcontra
          cases hq
          exact bcryptDigest_ne_plain salt p (by simpa [pwdContextHash] using hcontra)
  | vnone => simp [User.set_password, hash_password, Except.map] at h
  | vint n => simp [User.set_password, hash_password, Except.map] at h

/-- A fixed 22-character salt used for concrete witness evaluations. -/
def demoSalt : List Char := "0123456789012345678901".data

/-- A concrete user row used for concrete witness evaluations. -/
def demoUser : User :=
  { id := 1, username := "alice".data, email := "alice@x.com".data,
    password_hash := pwdContextHash demoSalt "Secr3t!".data,
    is_active := true, created_at := none, updated_at := none }

/-- C3 (amended): for all Python values handed to `verify_password`, the call
returns a boolean and never raises — also for an empty plaintext; a digest
string that is not a well-formed bcrypt digest, a non-string digest, and a
non-string plaintext each yield `false`; and an empty plaintext verifies true
only against a digest of the empty string itself (a digest `hash_password`
never produces, since it rejects empty input). The original claim also
demanded `false` for every empty plaintext, which fails on the digest of the
empty string — see the counterexample below. -/
theorem c3_verify_password_total_safe (plain hashed : PyVal) :
    (verify_password plain hashed = true ∨ verify_password plain hashed = false)
    ∧ (∀ ds, hashed = .vstr ds → isBcryptDigest ds = false →
        verify_password plain hashed = false)
    ∧ (hashed = .vnone → verify_password plain hashed = false)
    ∧ (∀ n : Int, hashed = .vint n → verify_password plain hashed = false)
    ∧ (plain = .vnone → verify_password plain hashed = false)
    ∧ (∀ n : Int, plain = .vint n → verify_password plain hashed = false)
    ∧ (∀ ds, plain = .vstr [] → hashed = .vstr ds →
        verify_password plain hashed = true → ds = bcryptDigest (saltOf ds) []) := by
  refine ⟨Bool.eq_false_or_eq_true _, ?_, ?_, ?_, ?_, ?_, ?_⟩
  · intro ds hd hbad
    subst hd
    cases plain <;> simp [verify_password, pwdContextVerify, hbad]
  · intro hd
    subst hd
    cases plain <;> simp [verify_password, pwdContextVerify]
  · intro n hd
    subst hd
    cases plain <;> simp [verify_password, pwdContextVerify]
  · intro hp
    subst hp
    simp [verify_password, pwdContextVerify]
  · intro n hp
    subst hp
    simp [verify_password, pwdContextVerify]
  · intro ds hp hd htrue
    subst hp
    subst hd
    by_cases hok : isBcryptDigest ds = true
    · simp [verify_password, pwdContextVerify, hok] at htrue
      exact htrue.symm
    · simp [verify_password, pwdContextVerify, hok] at htrue

theorem c3_verify_password_total_safe_witness :
    verify_password (.vstr "Secr3t!".data) (.vstr "garbage".data) = false :=
  (c3_verify_password_total_safe (.vstr "Secr3t!".data) (.vstr "garbage".data)).2.1
    "garbage".data rfl (by decide)

/-- C3, counterexample to the original claim: the empty plaintext is listed
among the inputs for which verification must return false, yet verifying the
empty plaintext against the (well-formed) digest of the empty string returns
true, exactly as the rehash-and-compare contract of section 4.1 dictates.
`hash_password` itself never produces this digest, as it rejects empty
input. -/
theorem c3_verify_password_empty_plaintext_counterexample :
    verify_password (.vstr []) (.vstr (pwdContextHash demoSalt [])) = true ∧
    verify_password (.vstr []) (.vstr (pwdContextHash demoSalt [])) ≠ false := by
  constructor
  · decide
  · decide

/-- C5: for every non-empty plaintext and every 22-character salt drawn by the
backend, verifying the plaintext against the digest `hash_password` produced
for it returns true. -/
theorem c5_hash_roundtrip (salt p : List Char) (hp : p ≠ [])
    (hs : salt.length = 22) :
    ∃ dig, hash_password salt (.vstr p) = .ok dig ∧
      verify_password (.vstr p) (.vstr dig) = true := by
  refine ⟨pwdContextHash salt p, ?_, ?_⟩
  · simp [hash_password, hp]
  · exact verify_password_of_digest salt p hs

theorem c5_hash_roundtrip_witness :
    ∃ dig, hash_password demoSalt (.vstr "Secr3t!".data) = .ok dig ∧
      verify_password (.vstr "Secr3t!".data) (.vstr dig) = true :=
  c5_hash_roundtrip demoSalt "Secr3t!".data (by decide) (by decide)

/-- C6: a login attempt whose identifier matches no stored user and a login
attempt whose identifier matches a stored user but whose password fails
verification produce the same externally visible outcome of
`authenticate_user` (`None` in both runs). -/
theorem c6_login_enumeration_resistance (db1 db2 : DB) (id1 id2 p1 p2 : List Char)
    (u : User)
    (h1 : findByIdentifier db1 id1 = none)
    (h2 : findByIdentifier db2 id2 = some u)
    (h3 : verify_password (.vstr p2) (.vstr u.password_hash) = false) :
    authenticate_user db1 id1 p1 = none ∧
    authenticate_user db2 id2 p2 = none ∧
    authenticate_user db1 id1 p1 = authenticate_user db2 id2 p2 := by
  refine ⟨?_, ?_, ?_⟩ <;> simp [authenticate_user, h1, h2, h3]

theorem c6_login_enumeration_resistance_witness :
    authenticate_user [] "nonexistent_user".data "anything".data = none ∧
    authenticate_user [demoUser] "alice".data "wrong_password".data = none ∧
    authenticate_user [] "nonexistent_user".data "anything".data =
      authenticate_user [demoUser] "alice".data "wrong_password".data :=
  c6_login_enumeration_resistance [] [demoUser] "nonexistent_user".data
    "alice".data "anything".data "wrong_password".data demoUser
    (by decide) (by decide) (by decide)

/-- C7: `hash_password` fails with the `ValueError` (the InvalidInput error of
the spec) exactly when the plaintext is the empty string or not a string, and
returns the digest without raising for every non-empty string. -/
theorem c7_hash_password_contract (salt : List Char) (v : PyVal) :
    (hash_password salt v = .error (.valueError "Password must be a non-empty string.")
      ↔ (v = .vstr [] ∨ v = .vnone ∨ ∃ n, v = .vint n))
    ∧ (∀ p, v = .vstr p → p ≠ [] →
        hash_password salt v = .ok (pwdContextHash salt p)) := by
  constructor
  · constructor
    · intro h
      cases v with
      | vstr p =>
          by_cases hp : p = []
          · exact Or.inl (by rw [hp])
          · simp [hash_password, hp] at h
      | vnone => exact Or.inr (Or.inl rfl)
      | vint n => exact Or.inr (Or.inr ⟨n, rfl⟩)
    · intro h
      rcases h with h | h | ⟨n, h⟩ <;> subst h <;> simp [hash_password]
  · intro p hv hp
    subst hv
    simp [hash_password, hp]

theorem c7_hash_password_contract_witness :
    (hash_password demoSalt (.vstr []) =
      .error (.valueError "Password must be a non-empty string."))
    ∧ hash_password demoSalt (.vstr "Secr3t!".data) =
      .ok (pwdContextHash demoSalt "Secr3t!".data) :=
  ⟨(c7_hash_password_contract demoSalt (.vstr [])).1.2 (Or.inl rfl),
   (c7_hash_password_contract demoSalt (.vstr "Secr3t!".data)).2
     "Secr3t!".data rfl (by decide)⟩

/-- C9: every user row produced by `User.set_password` or `User.from_schema`
stores a non-empty `password_hash` that differs from the plaintext password it
was derived from; only the digest is stored. -/
theorem c9_digest_never_plaintext :
    (∀ salt u password u2, User.set_password salt u password = .ok u2 →
      u2.password_hash ≠ [] ∧ ∀ p, password = .vstr p → u2.password_hash ≠ p)
    ∧ (∀ salt schema u2, User.from_schema salt schema = .ok u2 →
      u2.password_hash ≠ [] ∧ u2.password_hash ≠ schema.password) := by
  constructor
  · exact fun salt u password u2 h => set_password_digest salt u password u2 h
  · intro salt schema u2 h
    unfold User.from_schema at h
    obtain ⟨h1, h2⟩ := set_password_digest _ _ _ _ h
    exact ⟨h1, h2 _ rfl⟩

theorem c9_digest_never_plaintext_witness :
    ({ demoUser with password_hash := pwdContextHash demoSalt "Secr3t!".data } :
      User).password_hash ≠ "Secr3t!".data :=
  (c9_digest_never_plaintext.1 demoSalt demoUser (.vstr "Secr3t!".data)
    { demoUser with password_hash := pwdContextHash demoSalt "Secr3t!".data }
    rfl).2 "Secr3t!".data rfl

/-- C2: token verification fails with one and the same externally visible
error in all three failure cases — forged signature, expiry in the past, and
structural malformation — both for `verify_access_token` (one HTTP 401 with
one detail string) and for `decode_access_token` (one RuntimeError with one
message); nothing in the returned error distinguishes the causes. -/
theorem c2_uniform_invalid_token_error
    (now t : Int) (payload : Claims) (sig : Nat) (raw : List Char)
    (hforged : sig ≠ jwtSignature secretKey payload)
    (hexp : dictGet payload expKey = some (.time t)) (ht : t ≤ now) :
    verify_access_token now (.signed payload sig) =
      .error (.httpException 401 "Invalid or expired token") ∧
    verify_access_token now (.malformed raw) =
      .error (.httpException 401 "Invalid or expired token") ∧
    verify_access_token now (.signed payload (jwtSignature secretKey payload)) =
      .error (.httpException 401 "Invalid or expired token") ∧
    decode_access_token now (.signed payload sig) =
      .error (.runtimeError "Invalid or expired token") ∧
    decode_access_token now (.malformed raw) =
      .error (.runtimeError "Invalid or expired token") ∧
    decode_access_token now (.signed payload (jwtSignature secretKey payload)) =
      .error (.runtimeError "Invalid or expired token") := by
  refine ⟨?_, ?_, ?_, ?_, ?_, ?_⟩ <;>
    simp [verify_access_token, decode_access_token, jwtDecode, hforged, hexp, ht]

theorem c2_uniform_invalid_token_error_witness :
    verify_access_token 1 (.signed [(expKey, .time 0)]
        (jwtSignature secretKey [(expKey, .time 0)] + 1)) =
      .error (.httpException 401 "Invalid or expired token") ∧
    verify_access_token 1 (.malformed "not.a.token".data) =
      .error (.httpException 401 "Invalid or expired token") :=
  ⟨(c2_uniform_invalid_token_error 1 0 [(expKey, .time 0)]
      (jwtSignature secretKey [(expKey, .time 0)] + 1) "not.a.token".data
      (by simp) rfl (by decide)).1,
   (c2_uniform_invalid_token_error 1 0 [(expKey, .time 0)]
      (jwtSignature secretKey [(expKey, .time 0)] + 1) "not.a.token".data
      (by simp) rfl (by decide)).2.1⟩

/-- C4: issuing a token over a claims dict that contains a subject, with a
positive time to live, and verifying it immediately (same clock instant)
succeeds and yields a payload whose subject claim is the one in the dict. -/
theorem c4_token_roundtrip (now : Int) (h : Heap) (r : Nat) (dsec : Int)
    (s : List Char)
    (hr : r < h.length)
    (hsub : dictGet (heapRead h r) subKey = some (.str s))
    (hd : 0 < dsec) :
    ∃ payload,
      decode_access_token now (create_access_token now h r (some dsec)).2 =
        .ok payload
      ∧ dictGet payload subKey = some (.str s) := by
  refine ⟨dictSet (heapRead h r) expKey (.time (now + dsec)), ?_, ?_⟩
  · have e1 : (create_access_token now h r (some dsec)).2 =
        jwtEncode (dictSet (heapRead h r) expKey (.time (now + dsec))) secretKey := by
      unfold create_access_token heapAlloc
      simp [heapRead_append_length, heapWrite_append]
    have hlt : ¬ (now + dsec ≤ now) := by omega
    rw [e1]
    unfold decode_access_token jwtDecode jwtEncode
    simp [dictGet_dictSet_self, hlt]
  · rw [dictGet_dictSet_ne _ _ _ _ (by decide), hsub]

theorem c4_token_roundtrip_witness :
    ∃ payload,
      decode_access_token 100
        (create_access_token 100 [[(subKey, .str "7".data)]] 0 (some 60)).2 =
        .ok payload
      ∧ dictGet payload subKey = some (.str "7".data) :=
  c4_token_roundtrip 100 [[(subKey, .str "7".data)]] 0 60 "7".data
    (by decide) (by decide) (by decide)

/-- C10: issuing a token does not mutate the claims dict the caller passed
in — after `create_access_token` returns, the dict object the caller holds a
reference to is unchanged (the source updates only the internal copy made by
`data.copy()`). -/
theorem c10_issue_preserves_caller_claims (now : Int) (h : Heap) (r : Nat)
    (delta : Option Int) (hr : r < h.length) :
    heapRead (create_access_token now h r delta).1 r = heapRead h r := by
  have e : (create_access_token now h r delta).1 =
      (h ++ [heapRead h r]).set h.length
        (dictSet (heapRead (h ++ [heapRead h r]) h.length) expKey
          (.time (now + delta.getD ((accessTokenExpireMinutes : Int) * 60)))) := rfl
  rw [e, heapRead_set_ne _ _ _ _ (by omega)]
  exact heapRead_append_lt h _ r hr

theorem c10_issue_preserves_caller_claims_witness :
    heapRead (create_access_token 100 [[(subKey, .str "7".data)]] 0 none).1 0 =
      heapRead [[(subKey, .str "7".data)]] 0 :=
  c10_issue_preserves_caller_claims 100 [[(subKey, .str "7".data)]] 0 none
    (by decide)

/-- C8: once token verification has succeeded, `get_current_user` rejects a
missing or falsy subject claim with the 401 missing-user-ID error, rejects a
present subject with no matching stored user with the 401 not-found error,
and returns an identity view only when a matching user was found. -/
theorem c8_subject_and_lookup_rejections (now : Int) (token : Token) (db : DB)
    (payload : Claims)
    (hv : verify_access_token now token = .ok payload) :
    (dictGet payload subKey = none →
      get_current_user now token db =
        .error (.httpException 401 "Token missing user ID"))
    ∧ (∀ v, dictGet payload subKey = some v → pyTruthy v = false →
      get_current_user now token db =
        .error (.httpException 401 "Token missing user ID"))
    ∧ (∀ v, dictGet payload subKey = some v → pyTruthy v = true →
        findById db v = none →
      get_current_user now token db =
        .error (.httpException 401 "User not found or inactive"))
    ∧ (∀ resp, get_current_user now token db = .ok resp →
      ∃ v u, dictGet payload subKey = some v ∧ pyTruthy v = true ∧
        findById db v = some u ∧ resp = UserResponse.model_validate u) := by
  refine ⟨?_, ?_, ?_, ?_⟩
  · intro hs
    simp [get_current_user, hv, hs]
  · intro v hs ht
    simp [get_current_user, hv, hs, ht]
  · intro v hs ht hf
    simp [get_current_user, hv, hs, ht, hf]
  · intro resp hok
    simp only [get_current_user, hv] at hok
    cases hsv : dictGet payload subKey with
    | none => rw [hsv] at hok; simp at hok
    | some v =>
        simp only [hsv] at hok
        by_cases ht : pyTruthy v = true
        · rw [if_pos ht] at hok
          cases hfv : findById db v with
          | none => simp [hfv] at hok
          | some u =>
              simp only [hfv] at hok
              refine ⟨v, u, rfl, ht, hfv, ?_⟩
              simpa using hok.symm
        · rw [if_neg ht] at hok
          simp at hok

theorem c8_subject_and_lookup_rejections_witness :
    get_current_user 1 (jwtEncode [] secretKey) [] =
      .error (.httpException 401 "Token missing user ID") :=
  (c8_subject_and_lookup_rejections 1 (jwtEncode [] secretKey) [] []
    rfl).1 rfl

/-- A deactivated user row holding a valid password digest: the failing input
for the deactivated-account rejection requirement. -/
def aliceInactive : User :=
  { id := 1, username := "alice".data, email := "alice@x.com".data,
    password_hash := pwdContextHash demoSalt "Secr3t!".data,
    is_active := false, created_at := none, updated_at := none }

/-- C1: evaluation of `get_current_user` at the failing input. The stored
user has `is_active = false` and the presented token is validly signed and
not expired (issued at clock 1000, checked at clock 1000, 30-minute TTL), yet
session resolution returns the identity view of the deactivated user instead
of rejecting with 401 Unauthorized: the source never re-checks `is_active`,
although its own error detail reads "User not found or inactive" and the spec
(section 4.4 step 4 and section 9) mandates the liveness re-check. -/
theorem c1_inactive_identity_still_resolves :
    aliceInactive.is_active = false ∧
    get_current_user 1000 (User.create_token 1000 1) [aliceInactive] =
      .ok (UserResponse.model_validate aliceInactive) := by
  constructor
  · rfl
  · rfl
